import Mathlib

/-!
Shallow embedding of `sijiaoh/docker-mysql` (`src/index.ts`).

The program is a small CLI orchestrating `docker` and `mysql` invocations.
We embed each piece of program logic as a pure Lean definition:

* `getContainerName`, `getPort` — the pure string derivations (source lines 6-13);
* `retryRun` — the unbounded retry loop `retryCommand` (source lines 65-92),
  modelled with explicit fuel: an action is a map from attempt index to a
  result (`Except MErr Unit`, where `MErr` carries the captured stderr of a
  failed child process); `retryRun action succ k fuel` runs up to `fuel`
  attempts starting at attempt `k` and returns `some n` when the loop
  resolved after `n` total invocations, `none` when the fuel ran out with
  the loop still retrying.  The JS guard `successErrorStr && ...includes(...)`
  is truthiness-based, so the embedding checks the optional substring is
  present AND nonempty;
* `execMysqlCreds` / `execMysqlArgs` — the credential defaulting and the
  `docker exec ... mysql ...` argument list built by `execMysql`
  (source lines 26-63); absent values interpolate as the JS string
  "undefined", and `database || ''` collapses an absent or empty database
  name to the empty string;
* `upPlan` / `upRunArgs` — the `up` lifecycle step (source lines 129-155):
  try `docker start`, swallow any failure, fall through to `docker run`;
* `preparePlan` — the ordered step trace of the `prepare` command action
  (source lines 157-179); `userName && password` is again JS truthiness,
  so empty strings disable the user-creation and grant steps;
* `rmRun` — the `rm` command action (source lines 203-220): a best-effort
  `drop database` whose failure is swallowed by `.catch(() => {})`.
-/

/-- Captured stderr of a failed child process (what `execa`'s rejection
carries and `retryCommand` inspects via `e.stderr.toString()`). -/
structure MErr where
  stderr : String
  deriving DecidableEq, Repr

/-- `hasPrefixL pat l`: `pat` is a leading segment of `l` (character lists). -/
def hasPrefixL : List Char → List Char → Bool
  | [], _ => true
  | _ :: _, [] => false
  | a :: as, b :: bs => a == b && hasPrefixL as bs

/-- `hasSubstrL pat l`: `pat` occurs contiguously somewhere in `l`;
embeds JS `String.prototype.includes` on character lists. -/
def hasSubstrL (pat : List Char) : List Char → Bool
  | [] => pat.isEmpty
  | c :: rest => hasPrefixL pat (c :: rest) || hasSubstrL pat rest

/-- JS `s.includes(pat)`. -/
def strIncludes (s pat : String) : Bool :=
  hasSubstrL pat.data s.data

/-- JS template-literal interpolation of a possibly-absent string:
`undefined` stringifies as `"undefined"`. -/
def jsStr : Option String → String
  | none => "undefined"
  | some s => s

/-- JS truthiness of a possibly-absent string: `undefined` and `''` are
falsy, every other string is truthy. -/
def truthyS : Option String → Bool
  | none => false
  | some s => !(s == "")

/-- `mysqlVersion.replace(/\./g, '-')`: replace every `.` character by `-`. -/
def replaceDotsDash : List Char → List Char
  | [] => []
  | c :: cs => (if c = '.' then '-' else c) :: replaceDotsDash cs

/-- `mysqlVersion.replace(/\./g, '')`: drop every `.` character. -/
def stripDots : List Char → List Char
  | [] => []
  | c :: cs => if c = '.' then stripDots cs else c :: stripDots cs

/-- Source line 6-7: `'docker-mysql-' + mysqlVersion.replace(/\./g, '-')`. -/
def getContainerName (mysqlVersion : String) : String :=
  "docker-mysql-" ++ String.mk (replaceDotsDash mysqlVersion.data)

/-- Source line 8: the hardcoded administrative password. -/
def mysqlRootPassword : String := "docker-mysql-root-password"

/-- JS `l.slice(-3)` for a character list of length ≥ 3: the last 3 characters. -/
def sliceNeg3 (l : List Char) : List Char :=
  l.drop (l.length - 3)

/-- Source lines 9-13: `getPort`.  `'3306'` for `"latest"`; otherwise
`'3' + ('000' + v.replace(/\./g, '').slice(0, 3)).slice(-3)`. -/
def getPort (mysqlVersion : String) : String :=
  if mysqlVersion = "latest" then "3306"
  else "3" ++ String.mk (sliceNeg3 ("000".data ++ (stripDots mysqlVersion.data).take 3))

/-- Spec-side formulation of the container name ("replaces every `.` in the
version string with `-`, prefixed with a fixed tag"), for comparison. -/
def containerNameSpec (version : String) : String :=
  "docker-mysql-" ++ String.mk (version.data.map fun c => if c = '.' then '-' else c)

/-- "left-pads it to 3 digits with zeros": pad on the left with `'0'`
until the length is at least 3. -/
def padTo3 (l : List Char) : List Char :=
  List.replicate (3 - l.length) '0' ++ l

/-- Spec-side formulation of the host port ("takes the version string with
`.` removed, left-pads it to 3 digits with zeros, takes the first 3
characters, and prefixes with a fixed leading digit"), for comparison. -/
def hostPortSpec (version : String) : String :=
  if version = "latest" then "3306"
  else "3" ++ String.mk ((padTo3 (stripDots version.data)).take 3)

/-- Source lines 78-83: the guard of the catch handler,
`successErrorStr && e.stderr.toString().includes(successErrorStr)`.
`successErrorStr` is truthy exactly when present and nonempty. -/
def acceptableFailure (successErrorStr : Option String) (e : MErr) : Bool :=
  match successErrorStr with
  | none => false
  | some s => (!(s == "")) && strIncludes e.stderr s

/-- An attempt result is terminal for the loop: either the action succeeded
(`resolve()` in the `.then`) or it failed acceptably (`resolve()` in the
`.catch`).  Any other failure re-enters `loop()`. -/
def isTerminalB (successErrorStr : Option String) (r : Except MErr Unit) : Bool :=
  match r with
  | .ok _ => true
  | .error e => acceptableFailure successErrorStr e

/-- Source lines 65-92 (`retryCommand`), fuel-indexed.  The action is the
sequence of results of `commandCallback()` by attempt index.  With fuel
`f`, at most `f` invocations are performed starting at attempt `k`;
`some n` means the promise resolved after `n` total invocations, `none`
means the loop was still retrying when the fuel ran out (the real loop
has no attempt limit and keeps scheduling `loop()` every 100 ms). -/
def retryRun (action : Nat → Except MErr Unit) (successErrorStr : Option String) :
    Nat → Nat → Option Nat
  | _, 0 => none
  | k, f + 1 =>
    if isTerminalB successErrorStr (action k) then some (k + 1)
    else retryRun action successErrorStr (k + 1) f

/-- Source lines 37-42 of `execMysql`: the defaulting of credentials.
`if (userName == null && password == null)` substitutes the root
credentials; otherwise both options pass through unchanged. -/
def execMysqlCreds (userName password : Option String) :
    Option String × Option String :=
  if userName = none ∧ password = none then (some "root", some mysqlRootPassword)
  else (userName, password)

/-- Source lines 47-62: the full `docker` argument list built by `execMysql`.
`database || ''` collapses an absent (or empty) database name to `''`;
absent credentials interpolate as the string `"undefined"`. -/
def execMysqlArgs (mysqlVersion command : String)
    (userName password databaseName : Option String) : List String :=
  let creds := execMysqlCreds userName password
  ["exec",
   "--env", "MYSQL_PWD=" ++ jsStr creds.2,
   getContainerName mysqlVersion,
   "mysql",
   "--user=" ++ jsStr creds.1,
   databaseName.getD "",
   "-e", command]

/-- A docker lifecycle command issued by `up`. -/
inductive DockerCmd where
  | startC (container : String)
  | runC (args : List String)
  deriving DecidableEq, Repr

/-- Source lines 138-154: the argument list of the `docker run` fallback. -/
def upRunArgs (mysqlVersion : String) : List String :=
  ["run",
   "--name", getContainerName mysqlVersion,
   "--env", "MYSQL_ROOT_PASSWORD=" ++ mysqlRootPassword,
   "--publish", getPort mysqlVersion ++ ":3306",
   "--volume", getContainerName mysqlVersion ++ ":/var/lib/mysql",
   "-d", "mysql:" ++ mysqlVersion]

/-- Source lines 129-155 (`up`): first `docker start <name>`, whose outcome
is mapped by `.then(() => true).catch(() => false)` — every failure is
swallowed into `false`; on `true` the function returns, otherwise it
falls through to `docker run`.  `startResult` is the outcome of the
start attempt; the value is the ordered list of docker commands issued. -/
def upPlan (mysqlVersion : String) (startResult : Except MErr Unit) : List DockerCmd :=
  let running := match startResult with | .ok _ => true | .error _ => false
  if running then [DockerCmd.startC (getContainerName mysqlVersion)]
  else [DockerCmd.startC (getContainerName mysqlVersion),
        DockerCmd.runC (upRunArgs mysqlVersion)]

/-- One provisioning step of the `prepare` command action. -/
inductive PrepareStep where
  | upStep (version : String)
  | createDatabaseStep (version name : String)
  | createUserStep (version name password : String)
  | grantStep (version userName databaseName : String)
  deriving DecidableEq, Repr

/-- Source lines 157-179 (the `prepare` action): `up`, `createDatabase`,
then `const userCreated = userName && password` (JS truthiness: absent or
empty strings are falsy) gates `createUser` and `grantDatabaseToUser`. -/
def preparePlan (mysqlVersion databaseName : String)
    (userName password : Option String) : List PrepareStep :=
  let userCreated := truthyS userName && truthyS password
  [PrepareStep.upStep mysqlVersion,
   PrepareStep.createDatabaseStep mysqlVersion databaseName]
  ++ (if userCreated then
        [PrepareStep.createUserStep mysqlVersion (jsStr userName) (jsStr password),
         PrepareStep.grantStep mysqlVersion (jsStr userName) databaseName]
      else [])

/-- `.catch(() => {})`: map every failure to success. -/
def catchSwallow (r : Except MErr Unit) : Except MErr Unit :=
  match r with
  | .ok u => .ok u
  | .error _ => .ok ()

/-- Source lines 203-220 (the `rm` action): issue
`execMysql(version, 'drop database <name>', options)` and swallow any
failure.  `dropResult` is the outcome of that invocation; the value is
the constructed argument list together with the surfaced outcome. -/
def rmRun (mysqlVersion databaseName : String) (userName password : Option String)
    (dropResult : Except MErr Unit) : List String × Except MErr Unit :=
  (execMysqlArgs mysqlVersion ("drop database " ++ databaseName) userName password none,
   catchSwallow dropResult)

/-- A concrete action that fails its first two invocations and then
always succeeds. -/
def failTwiceAction : Nat → Except MErr Unit :=
  fun k => if k < 2 then .error ⟨"connection refused"⟩ else .ok ()

/-- A concrete action that fails every invocation with the same stderr. -/
def alwaysFailAction : Nat → Except MErr Unit :=
  fun _ => .error ⟨"broken target"⟩

/-- A concrete action that always fails with an "already exists" stderr. -/
def dbExistsAction : Nat → Except MErr Unit :=
  fun _ => .error ⟨"ERROR 1007 database exists"⟩

/-- Character-wise description of the `.`→`-` replacement. -/
theorem replaceDotsDash_eq_map (l : List Char) :
    replaceDotsDash l = l.map (fun c => if c = '.' then '-' else c) := by
  induction l with
  | nil => rfl
  | cons c cs ih => simp [replaceDotsDash, ih]

/-- The source's truncate-then-right-slice on `'000' ++ ·` agrees with the
spec's pad-to-3-then-take-3 description, for every character list. -/
theorem sliceNeg3_pad (t : List Char) :
    sliceNeg3 ("000".data ++ t.take 3) = (padTo3 t).take 3 := by
  match t with
  | [] => rfl
  | [a] => rfl
  | [a, b] => rfl
  | a :: b :: c :: rest =>
    simp [sliceNeg3, padTo3, List.take]

/-- C1: for every action that fails on its first two invocations and
succeeds on the third, `retryCommand` (invoked as in the spec's test, with
no acceptable-failure substring) resolves successfully after exactly 3
invocations of the action, and does not resolve before the first
successful invocation: every run truncated to fewer than 3 attempts is
still unresolved, and every run with at least 3 attempts of fuel resolves
with invocation count 3. -/
theorem retryCommand_fails_twice_then_succeeds (action : Nat → Except MErr Unit)
    (e0 e1 : MErr) (h0 : action 0 = .error e0) (h1 : action 1 = .error e1)
    (h2 : action 2 = .ok ()) :
    (∀ f, retryRun action none 0 (f + 3) = some 3) ∧
      retryRun action none 0 0 = none ∧
      retryRun action none 0 1 = none ∧
      retryRun action none 0 2 = none := by
  refine ⟨fun f => ?_, rfl, ?_, ?_⟩ <;>
    simp [retryRun, isTerminalB, acceptableFailure, h0, h1, h2]

/-- Witness for C1 at the concrete fail-twice-then-succeed action. -/
theorem retryCommand_fails_twice_then_succeeds_witness :
    retryRun failTwiceAction none 0 10 = some 3 ∧
      retryRun failTwiceAction none 0 2 = none := by
  have h := retryCommand_fails_twice_then_succeeds failTwiceAction
    ⟨"connection refused"⟩ ⟨"connection refused"⟩ rfl rfl rfl
  exact ⟨h.1 7, h.2.2.2⟩

/-- C2 counterexample: the claim quantifies over every acceptable-failure
substring, but the empty substring is falsy in JS, so the guard
`successErrorStr && e.stderr.toString().includes(successErrorStr)` never
fires for it: with substring `""` and an action whose first invocation
fails with stderr `"broken target"` (which does contain `""`), the loop
does not resolve after one invocation — it is still retrying after 5. -/
theorem retryCommand_empty_substring_counterexample :
    strIncludes "broken target" "" = true ∧
      alwaysFailAction 0 = .error ⟨"broken target"⟩ ∧
      retryRun alwaysFailAction (some "") 0 1 ≠ some 1 ∧
      retryRun alwaysFailAction (some "") 0 5 = none :=
  ⟨by decide, rfl, by decide, by decide⟩

/-- C2 (amended): for every NONEMPTY acceptable-failure substring, if the
action's first invocation fails with an error whose stderr contains that
substring, `retryCommand` resolves successfully after exactly one
invocation of the action: any run with at least 1 attempt of fuel
resolves with invocation count 1. -/
theorem retryCommand_acceptable_first_failure (s : String)
    (action : Nat → Except MErr Unit) (e : MErr)
    (hs : (s == "") = false) (h0 : action 0 = .error e)
    (hinc : strIncludes e.stderr s = true) :
    (∀ f, retryRun action (some s) 0 (f + 1) = some 1) ∧
      retryRun action (some s) 0 0 = none := by
  refine ⟨fun f => ?_, rfl⟩
  simp [retryRun, isTerminalB, acceptableFailure, h0, hs, hinc]

/-- Witness for the amended C2 at a concrete "already exists" failure. -/
theorem retryCommand_acceptable_first_failure_witness :
    retryRun dbExistsAction (some "database exists") 0 6 = some 1 :=
  (retryCommand_acceptable_first_failure "database exists" dbExistsAction
    ⟨"ERROR 1007 database exists"⟩ (by decide) rfl (by decide)).1 5

/-- C3: for every action whose every invocation fails non-acceptably (no
attempt is terminal for the loop), `retryCommand` never completes: for
every amount of fuel and every starting attempt, the run is still
retrying — there is no attempt limit at which it gives up. -/
theorem retryCommand_diverges_on_persistent_failure
    (action : Nat → Except MErr Unit) (successErrorStr : Option String)
    (h : ∀ k, isTerminalB successErrorStr (action k) = false) :
    ∀ f k, retryRun action successErrorStr k f = none := by
  intro f
  induction f with
  | zero => intro k; rfl
  | succ f ih =>
    intro k
    simp [retryRun, h k]
    exact ih (k + 1)

/-- Witness for C3 at the concrete always-failing action. -/
theorem retryCommand_diverges_on_persistent_failure_witness :
    retryRun alwaysFailAction (some "ready for connections") 0 9 = none :=
  retryCommand_diverges_on_persistent_failure alwaysFailAction
    (some "ready for connections") (fun _ => rfl) 9 0

/-- C4: `retryCommand` never surfaces a failure to its caller: every run
either has not completed (`none`) or resolved successfully (`some n`),
and in the latter case the resolving invocation was terminal — the action
succeeded there or failed acceptably.  The model's result type has no
rejection constructor, mirroring the promise, whose `resolve` is the only
continuation ever invoked (`reject` is never taken). -/
theorem retryCommand_never_rejects (action : Nat → Except MErr Unit)
    (successErrorStr : Option String) :
    ∀ f k, retryRun action successErrorStr k f = none ∨
      ∃ n, retryRun action successErrorStr k f = some n ∧
        isTerminalB successErrorStr (action (n - 1)) = true ∧ k < n := by
  intro f
  induction f with
  | zero => intro k; exact Or.inl rfl
  | succ f ih =>
    intro k
    by_cases h : isTerminalB successErrorStr (action k) = true
    · exact Or.inr ⟨k + 1, by simp [retryRun, h], by simpa using h,
        Nat.lt_succ_self k⟩
    · have hb : isTerminalB successErrorStr (action k) = false := by
        simpa using h
      rcases ih (k + 1) with hnone | ⟨n, hn, ht, hk⟩
      · exact Or.inl (by simp [retryRun, hb]; exact hnone)
      · exact Or.inr ⟨n, by simp [retryRun, hb]; exact hn, ht,
          Nat.lt_of_succ_lt hk⟩

/-- C5: `getPort` ("hostPort") returns `"3306"` for the sentinel version
`"latest"`; for every other version string it returns `'3'` followed by
the version with every `'.'` removed, left-padded to 3 digits with zeros
and taken to its first 3 characters (`hostPortSpec` is that description
verbatim); in particular `getPort "8.0" = "3080"`, `getPort "5.7" =
"3057"`, and a version with more than 3 significant digits truncates
silently (`getPort "8.0.32" = "3803"`). -/
theorem getPort_matches_spec :
    (∀ v, getPort v = hostPortSpec v) ∧
      getPort "latest" = "3306" ∧ getPort "8.0" = "3080" ∧
      getPort "5.7" = "3057" ∧ getPort "8.0.32" = "3803" := by
  refine ⟨fun v => ?_, by decide, by decide, by decide, by decide⟩
  unfold getPort hostPortSpec
  by_cases h : v = "latest"
  · simp [h]
  · rw [if_neg h, if_neg h, sliceNeg3_pad]

/-- C6 counterexample: an empty user name is "supplied" (`isSome`) together
with a nonempty password, yet `prepare` skips the user-creation and grant
steps, because `const userCreated = userName && password` is JS
truthiness and `''` is falsy — so "if and only if both were supplied" fails
in the "if" direction. -/
theorem preparePlan_empty_user_counterexample :
    (some "").isSome = true ∧ (some "secret").isSome = true ∧
      preparePlan "8.0" "appdb" (some "") (some "secret") =
        [PrepareStep.upStep "8.0", PrepareStep.createDatabaseStep "8.0" "appdb"] := by
  decide

/-- C6 (amended): `prepare` invokes the user-creation step and the grant
step if and only if both a NONEMPTY user name and a NONEMPTY password
were supplied (an absent or empty value is falsy and disables both);
when so it runs container-up, database-create, user-create, grant in that
order, and otherwise it performs only container-up and database-create,
in that order, never invoking user creation or grant. -/
theorem preparePlan_user_steps_iff_truthy (v db : String) (u p : Option String) :
    ((truthyS u && truthyS p) = true →
       preparePlan v db u p =
         [PrepareStep.upStep v, PrepareStep.createDatabaseStep v db,
          PrepareStep.createUserStep v (jsStr u) (jsStr p),
          PrepareStep.grantStep v (jsStr u) db]) ∧
    ((truthyS u && truthyS p) = false →
       preparePlan v db u p =
         [PrepareStep.upStep v, PrepareStep.createDatabaseStep v db]) := by
  constructor <;> intro h <;> simp [preparePlan, h]

/-- Witness for the amended C6: with both credentials nonempty all four
steps run in order; with neither supplied only the first two run. -/
theorem preparePlan_user_steps_iff_truthy_witness :
    preparePlan "8.0" "appdb" (some "alice") (some "secret") =
      [PrepareStep.upStep "8.0", PrepareStep.createDatabaseStep "8.0" "appdb",
       PrepareStep.createUserStep "8.0" "alice" "secret",
       PrepareStep.grantStep "8.0" "alice" "appdb"] ∧
    preparePlan "8.0" "appdb" none none =
      [PrepareStep.upStep "8.0", PrepareStep.createDatabaseStep "8.0" "appdb"] :=
  ⟨(preparePlan_user_steps_iff_truthy "8.0" "appdb" (some "alice") (some "secret")).1
     (by decide),
   (preparePlan_user_steps_iff_truthy "8.0" "appdb" none none).2 (by decide)⟩

/-- C7: `up` first issues `docker start` on `getContainerName version`;
if that succeeds nothing further happens; if it fails for any reason
(any stderr whatsoever) the failure is swallowed and `up` falls through
to `docker run`, whose argument list injects the fixed administrative
password via `--env`, publishes `getPort version` to the engine's default
port 3306, and mounts a persistent volume named `getContainerName
version`. -/
theorem up_start_then_fallback_run (v : String) (e : MErr) :
    upPlan v (.ok ()) = [DockerCmd.startC (getContainerName v)] ∧
      upPlan v (.error e) =
        [DockerCmd.startC (getContainerName v), DockerCmd.runC (upRunArgs v)] ∧
      "MYSQL_ROOT_PASSWORD=" ++ mysqlRootPassword ∈ upRunArgs v ∧
      getPort v ++ ":3306" ∈ upRunArgs v ∧
      getContainerName v ++ ":/var/lib/mysql" ∈ upRunArgs v := by
  refine ⟨rfl, rfl, ?_, ?_, ?_⟩ <;> simp [upRunArgs]

/-- C8: for every version, database name and credential options, the `rm`
action's outcome is `Except.ok ()` whatever the drop command returned —
`.catch(() => {})` swallows every failure unconditionally — and the drop
invocation it issues is the `execMysql` argument list for
`drop database <name>`. -/
theorem rm_swallows_all_failures (v db : String) (u p : Option String)
    (r : Except MErr Unit) :
    (rmRun v db u p r).2 = Except.ok () ∧
      (rmRun v db u p r).1 =
        execMysqlArgs v ("drop database " ++ db) u p none := by
  refine ⟨?_, rfl⟩
  cases r <;> rfl

/-- C9: for every version string `v`, `getContainerName v` is the fixed
tag `'docker-mysql-'` followed by `v` with every `'.'` replaced by `'-'`
(`containerNameSpec` is that description verbatim); it is a total Lean
function with no failure mode, and calling it twice on the same version
yields identical output. -/
theorem getContainerName_matches_spec (v : String) :
    getContainerName v = containerNameSpec v ∧
      getContainerName v = getContainerName v := by
  refine ⟨?_, rfl⟩
  simp [getContainerName, containerNameSpec, replaceDotsDash_eq_map]

/-- Witness for C9 at a concrete version. -/
theorem getContainerName_matches_spec_witness :
    getContainerName "8.0" = containerNameSpec "8.0" ∧
      getContainerName "8.0" = "docker-mysql-8-0" :=
  ⟨(getContainerName_matches_spec "8.0").1, by decide⟩

/-- C10: `execMysql` substitutes the default administrative credentials
(user `root` and the hardcoded root password) if and only if both the
`userName` and `password` options are absent; when at least one of the
two is supplied no default is applied — the resolved credential pair is
exactly the supplied options, the missing one still absent — and the
constructed `docker exec ... mysql` invocation interpolates the options
as-is (an absent one stringifying, as in JS, to `"undefined"`). -/
theorem execMysql_default_credentials (v cmd : String) (u p d : Option String) :
    ((u = none ∧ p = none) →
       execMysqlCreds u p = (some "root", some mysqlRootPassword) ∧
       execMysqlArgs v cmd u p d =
         ["exec", "--env", "MYSQL_PWD=" ++ mysqlRootPassword,
          getContainerName v, "mysql", "--user=" ++ "root",
          d.getD "", "-e", cmd]) ∧
    (¬(u = none ∧ p = none) →
       execMysqlCreds u p = (u, p) ∧
       execMysqlArgs v cmd u p d =
         ["exec", "--env", "MYSQL_PWD=" ++ jsStr p,
          getContainerName v, "mysql", "--user=" ++ jsStr u,
          d.getD "", "-e", cmd]) := by
  constructor <;> intro h <;>
    simp [execMysqlArgs, execMysqlCreds, h, jsStr]

/-- Witness for C10: defaults at (absent, absent); pass-through with the
password still absent at (supplied, absent). -/
theorem execMysql_default_credentials_witness :
    execMysqlCreds none none = (some "root", some mysqlRootPassword) ∧
      execMysqlCreds (some "alice") none = (some "alice", none) :=
  ⟨((execMysql_default_credentials "8.0" "select 1" none none none).1
      ⟨rfl, rfl⟩).1,
   ((execMysql_default_credentials "8.0" "select 1" (some "alice") none none).2
      (by simp)).1⟩
